import Mathlib

/-!
Verification model of `src/scraping.py`: the value parser
(`_parse_watts_str`, the `toWatts` helper of `JS_EXTRACT`), the extraction
strategy chain (`_extract_textwise`, `_extract_by_xpath`, `scrape_once`),
the last-known-good cache and publisher (the reconciliation block of `main`
together with `ha_set_state`), and the control flow of `main`.

Python machine floats are modelled exactly: the numeric tokens the parser
accepts are short decimal literals, carried as exact fractions
`numerator / 10^k` in integer arithmetic, with Python's banker rounding
`round` modelled as `roundHalfToEven` and JavaScript's `Math.round` as
`roundHalfUp`.
-/

namespace Scraping

/-- Characters matched by the regex class `\s` on the parser's inputs (the
non-breaking space `\xa0` has already been replaced by a plain space before
the regex runs, so the ASCII whitespace set suffices). -/
def isSpaceChar (c : Char) : Bool :=
  c = ' ' || c = '\t' || c = '\n' || c = '\r' || c = '\x0b' || c = '\x0c'

/-- The regex class `\d` on the parser's inputs. -/
def isDigitChar (c : Char) : Bool :=
  '0' ≤ c && c ≤ '9'

def digitVal (c : Char) : ℕ := c.toNat - '0'.toNat

/-- Greedy `\d+` at the head of the input: the leading run of digits and the
remainder. -/
def takeDigits : List Char → List Char × List Char
  | [] => ([], [])
  | c :: cs =>
    if isDigitChar c then
      let p := takeDigits cs
      (c :: p.1, p.2)
    else ([], c :: cs)

/-- The group `(\d+(?:[.,]\d+)?)` matched at the head of the input: integer
digits, fractional digits (empty when the optional fractional group fails to
match), and the remainder of the input after the group. -/
def matchNumber (cs : List Char) : Option (List Char × List Char × List Char) :=
  match takeDigits cs with
  | ([], _) => none
  | (ds, rest) =>
    match rest with
    | [] => some (ds, [], [])
    | sep :: rest2 =>
      if sep = '.' ∨ sep = ',' then
        match takeDigits rest2 with
        | ([], _) => some (ds, [], sep :: rest2)
        | (fs, rest3) => some (ds, fs, rest3)
      else some (ds, [], sep :: rest2)

/-- Model of `re.search` for the pattern of `_parse_watts_str`: the leftmost
match.
Everything after the first group is optional, so a match exists exactly at
the first digit of the input. -/
def findNumber : List Char → Option (List Char × List Char × List Char)
  | [] => none
  | c :: cs =>
    match matchNumber (c :: cs) with
    | some r => some r
    | none => findNumber cs

/-- Whether the optional unit group `(kW|W)?` matched at this position (after
the optional whitespace has been skipped) captures `kW` case-insensitively.
Every other outcome — a captured `W`, or no capture, in which case the code
substitutes the default `"W"` — leaves the value in watts, so only this bit
of the capture is ever consulted. -/
def unitIsKw : List Char → Bool
  | a :: b :: _ => a.toLower = 'k' && b.toLower = 'w'
  | _ => false

def valOfDigits (ds : List Char) : ℕ :=
  ds.foldl (fun a c => 10 * a + digitVal c) 0

/-- Numerator of the exact value of the decimal literal `ip.fs` over the
denominator `10 ^ fs.length` (the Python code parses the literal with
`float`; we carry its exact value as the fraction `scaledNumber / 10^k`). -/
def scaledNumber (ip fs : List Char) : ℕ :=
  valOfDigits ip * 10 ^ fs.length + valOfDigits fs

/-- Python's `round` to an integer — round half to even — applied to the
nonnegative fraction `n / d`. -/
def roundHalfToEven (n d : ℕ) : ℕ :=
  if 2 * (n % d) < d then n / d
  else if d < 2 * (n % d) then n / d + 1
  else if n / d % 2 = 0 then n / d else n / d + 1

/-- JavaScript's `Math.round` — round half toward positive infinity — applied
to the nonnegative fraction `n / d` (for `x ≥ 0`, `Math.round x = ⌊x + 1/2⌋`). -/
def roundHalfUp (n d : ℕ) : ℕ := (2 * n + d) / (2 * d)

/-- Python `str.strip()` restricted to the whitespace that can occur here. -/
def stripChars (cs : List Char) : List Char :=
  ((cs.dropWhile isSpaceChar).reverse.dropWhile isSpaceChar).reverse

/-- Core of `_parse_watts_str` (src/scraping.py lines 73-81) after the `if not s`
guard: replace `\xa0` by a space, strip, search the pattern
`(\d+(?:[.,]\d+)?)(?:\s*)?(kW|W)?`, read the number with `,` as `.`,
multiply by 1000 when the captured unit lowercases to `kw`, and round. -/
def parseWattsCore (cs0 : List Char) : Option ℤ :=
  let cs := stripChars (cs0.map fun c => if c = '\xa0' then ' ' else c)
  match findNumber cs with
  | none => none
  | some (ip, fs, rest) =>
    let kw := unitIsKw (rest.dropWhile isSpaceChar)
    let n := if kw then scaledNumber ip fs * 1000 else scaledNumber ip fs
    some (roundHalfToEven n (10 ^ fs.length) : ℕ)

/-- Model of `_parse_watts_str` (lines 73-81): `if not s: return None` — `None` and
the empty string are falsy — then the regex search on the string's text. -/
def parse_watts_str : Option String → Option ℤ
  | none => none
  | some s => if s = "" then none else parseWattsCore s.data

/-- Model of `toWatts` inside `JS_EXTRACT` (lines 96-102), applied to a successful
capture of the group `(\d+(?:[.,]\d+)?)`: the group cannot capture a sign, so
the captured text is integer digits `ip` and fractional digits `fs`;
`kw` is the case-insensitive test of the unit capture against `kw`;
`parseFloat` of a digit string is never `NaN`; `Math.round` rounds half up. -/
def jsToWatts (ip fs : List Char) (kw : Bool) : ℤ :=
  (roundHalfUp (if kw then scaledNumber ip fs * 1000 else scaledNumber ip fs)
    (10 ^ fs.length) : ℕ)

example : parse_watts_str (some "0,83 kW") = some 830 := by decide
example : parse_watts_str (some "829 W") = some 829 := by decide
example : parse_watts_str (some "no numbers here") = none := by decide
example : parse_watts_str (some "0.5\xa0kW") = some 500 := by decide
example : parse_watts_str (some "-500 W") = some 500 := by decide
example : parse_watts_str none = none := by decide

/-- The three per-metric values of one extraction step, each `none` for a
miss (Python `None`).  Field names follow the Python locals `prod`, `cons`,
`grid`; the `JS_EXTRACT` keys `production`, `consumption`, `gridFeedIn` are
read into exactly these locals in `_extract_textwise`. -/
structure Watts3 where
  prod : Option ℤ
  cons : Option ℤ
  grid : Option ℤ
deriving DecidableEq, Repr

/-- Python truthiness of an `Optional[int]`: `None` and `0` are falsy. -/
def pyTruthy : Option ℤ → Bool
  | none => false
  | some v => v != 0

/-- Model of `_extract_textwise` (lines 321-342).  `jsTop` is the `JS_EXTRACT` result
on the top-level document; `jsIframe` is its result inside the first iframe,
`none` when there is no iframe or entering/running it raises (in which case
the top-level values are kept).  The fall-through guard
`if prod or grid or cons` is Python truthiness, so an all-`None` and an
all-zero top-level result both fall through, and a successful iframe script
overwrites all three values wholesale. -/
def extract_textwise (jsTop : Watts3) (jsIframe : Option Watts3) : Watts3 :=
  if pyTruthy jsTop.prod || pyTruthy jsTop.grid || pyTruthy jsTop.cons then jsTop
  else
    match jsIframe with
    | none => jsTop
    | some f => f

/-- Python `x if x is not None else y` as it arises from the
`if prod is None: prod = xp_prod` fill-ins. -/
def orElseOpt (a b : Option ℤ) : Option ℤ :=
  match a with
  | some v => some v
  | none => b

/-- Model of `_extract_by_xpath` (lines 280-319).  `xpTop` holds the three independent
top-level XPath lookups (each `none` when its lookup raised); if any resolved,
return immediately; otherwise retry inside the first iframe (`xpIframe`;
`none` when there is no iframe or entering it raises), filling only the
still-`None` slots. -/
def extract_by_xpath (xpTop : Watts3) (xpIframe : Option Watts3) : Watts3 :=
  if xpTop.prod.isSome || xpTop.cons.isSome || xpTop.grid.isSome then xpTop
  else
    match xpIframe with
    | none => xpTop
    | some f =>
      ⟨orElseOpt xpTop.prod f.prod, orElseOpt xpTop.cons f.cons, orElseOpt xpTop.grid f.grid⟩

/-- One tick's view of the rendered page: everything the extraction chain of
`scrape_once` can observe. -/
structure PageState where
  /-- Result of `JS_EXTRACT` on the top-level document. -/
  jsTop : Watts3
  /-- Result of `JS_EXTRACT` inside the first iframe; `none` when absent or raising. -/
  jsIframe : Option Watts3
  /-- XPath lookups on the top-level document. -/
  xpTop : Watts3
  /-- XPath lookups inside the first iframe; `none` when absent or raising. -/
  xpIframe : Option Watts3
  /-- Step 3 of `scrape_once`: when an iframe is found it is force-reloaded
  and the textwise extraction repeats against the post-reload page; `none`
  models no iframe (or an exception), in which case nothing happens. -/
  reloadedJs : Option (Watts3 × Option Watts3)
deriving DecidableEq, Repr

/-- Step 2 of `scrape_once` (lines 354-359): fall back to XPaths for the
metrics the textwise stage left `None`. -/
def scrape_step2 (t : Watts3) (ps : PageState) : Watts3 :=
  if t.prod.isNone || t.cons.isNone || t.grid.isNone then
    ⟨orElseOpt t.prod (extract_by_xpath ps.xpTop ps.xpIframe).prod,
      orElseOpt t.cons (extract_by_xpath ps.xpTop ps.xpIframe).cons,
      orElseOpt t.grid (extract_by_xpath ps.xpTop ps.xpIframe).grid⟩
  else t

/-- Step 3 of `scrape_once` (lines 361-372): if still nothing at all, reload
the iframe once and re-run the textwise extraction.  Also returns how many
iframe reloads were issued (0 or 1). -/
def scrape_step3 (r : Watts3) (ps : PageState) : Watts3 × ℕ :=
  if r.prod.isNone && r.cons.isNone && r.grid.isNone then
    match ps.reloadedJs with
    | none => (r, 0)
    | some p => (extract_textwise p.1 p.2, 1)
  else (r, 0)

/-- Model of `scrape_once` (lines 344-375), its extraction chain: textwise first, then
XPath fill-in, then the one-shot iframe refresh.  (The login-bounce recovery
at lines 346-349 belongs to the session state machine and is modelled in
`main_control`.)  Python returns the tuple `(prod, grid, cons)` which `main`
unpacks into the same-named locals — the named fields make that the
identity. -/
def scrape_once (ps : PageState) : Watts3 × ℕ :=
  scrape_step3 (scrape_step2 (extract_textwise ps.jsTop ps.jsIframe) ps) ps

def SENSOR_PRODUCTION : String := "sensor.pv_production"
def SENSOR_CONSUMPTION : String := "sensor.pv_consumption"
def SENSOR_GRID : String := "sensor.grid_export"

/-- The per-metric last-known-good cache: the dict
`last = {"prod": None, "cons": None, "grid": None}` of `main` (line 412). -/
structure LastGood where
  prod : Option ℤ
  cons : Option ℤ
  grid : Option ℤ
deriving DecidableEq, Repr

/-- Model of `ha_set_state` (lines 377-394) as the list of publish calls (POSTs to the
sink) it issues: a `None` value returns before any request; otherwise exactly
one POST of the integer value is made (HA configured; a non-2xx or failing
POST is caught and logged and still counts as the one publish call made). -/
def ha_set_state (entity : String) (value : Option ℤ) : List (String × ℤ) :=
  match value with
  | none => []
  | some v => [(entity, v)]

/-- One arm `if x is not None and x != last.get(k): last[k] = int(x);
updated = True` of the reconciliation (lines 436-438), for a single metric:
the new cache entry and whether this arm set `updated`.  (Python's `!=`
between an `int` and `None` is `True`, which `some v ≠ l` captures.) -/
def recon1 (l r : Option ℤ) : Option ℤ × Bool :=
  match r with
  | none => (l, false)
  | some v => if some v ≠ l then (some v, true) else (l, false)

/-- Lines 435-438: the three reconciliation arms and the accumulated
`updated` flag. -/
def reconcile (last : LastGood) (r : Watts3) : LastGood × Bool :=
  (⟨(recon1 last.prod r.prod).1, (recon1 last.cons r.cons).1, (recon1 last.grid r.grid).1⟩,
    (recon1 last.prod r.prod).2 || (recon1 last.cons r.cons).2 || (recon1 last.grid r.grid).2)

/-- What one loop iteration of `main` did after `scrape_once` returned. -/
structure TickOut where
  last : LastGood
  /-- The publish calls issued, in order. -/
  publishes : List (String × ℤ)
  /-- Count of `driver.execute_script("location.reload();")` calls (line 451). -/
  pageReloads : ℕ
  /-- Iframe reloads issued inside `scrape_once` step 3 (line 366). -/
  iframeReloads : ℕ
deriving DecidableEq, Repr

/-- Lines 433-452, the body of one loop iteration of `main` given the
readings `scrape_once` returned: reconcile into `last`; if anything updated,
call `ha_set_state` for all three sensors (each call dropping a `None`
cached value); then, if this tick resolved nothing at all, force a page
reload. -/
def main_tick (last : LastGood) (r : Watts3) : TickOut :=
  { last := (reconcile last r).1
    publishes :=
      if (reconcile last r).2 then
        ha_set_state SENSOR_PRODUCTION (reconcile last r).1.prod ++
          ha_set_state SENSOR_CONSUMPTION (reconcile last r).1.cons ++
            ha_set_state SENSOR_GRID (reconcile last r).1.grid
      else []
    pageReloads := if r.prod.isNone && r.cons.isNone && r.grid.isNone then 1 else 0
    iframeReloads := 0 }

/-- A full tick: `scrape_once` followed by the loop body, with the iframe
reloads of step 3 accounted for. -/
def full_tick (last : LastGood) (ps : PageState) : TickOut :=
  { main_tick last (scrape_once ps).1 with iframeReloads := (scrape_once ps).2 }

/-- Consecutive loop iterations of `main` on given readings. -/
def run_ticks (last : LastGood) : List Watts3 → List TickOut
  | [] => []
  | r :: rs => main_tick last r :: run_ticks (main_tick last r).last rs

/-- Consecutive loop iterations of `main` on given page states. -/
def run_full_ticks (last : LastGood) : List PageState → List TickOut
  | [] => []
  | ps :: rest => full_tick last ps :: run_full_ticks (full_tick last ps).last rest

/-- How `main` (lines 406-459) can end, seen from the process boundary. -/
inductive MainOutcome
  /-- The `RuntimeError("EMAIL/PASSWORD not provided.")` of line 409. -/
  | startupError
  /-- An exception escaped `main` past the `finally` (the browser is closed
  on the way out) and the process terminates. -/
  | crashed
  /-- Still inside the `while True` scrape loop. -/
  | running
deriving DecidableEq, Repr

/-- What an observer of the process sees of a run of `main`. -/
structure MainTrace where
  browserCreated : Bool
  ticksCompleted : ℕ
  outcome : MainOutcome
deriving DecidableEq, Repr

/-- Python `not s` for an optional string: `None` and `""` are falsy. -/
def pyFalsyStr : Option String → Bool
  | none => true
  | some s => s = ""

/-- Control flow of `main` (lines 406-459).  Order of events: the credential
check (lines 408-409) runs before `make_driver()` (line 411); the initial
`do_login_fronius` (line 417) runs after the browser exists but before the
`while True` loop and outside any per-tick handler, so if it raises the
exception escapes `main` (the `finally` only closes the browser) and the
process dies; once the loop is entered, each iteration's body is wrapped in
`try/except Exception` (lines 422-457), so a tick completes whether or not
its body raised (`tickRaised` records which ticks raised — e.g. an in-loop
re-login timeout — and has no effect on progress). -/
def main_control (email password : Option String) (initialLoginOk : Bool)
    (tickRaised : List Bool) : MainTrace :=
  if pyFalsyStr email || pyFalsyStr password then ⟨false, 0, .startupError⟩
  else if !initialLoginOk then ⟨true, 0, .crashed⟩
  else ⟨true, tickRaised.length, .running⟩

example :
    (scrape_once ⟨⟨some 100, some 70, some 50⟩, none, ⟨some 200, some 201, some 202⟩,
      none, none⟩).1 = ⟨some 100, some 70, some 50⟩ := by decide

example :
    (run_ticks ⟨none, none, none⟩
      [⟨some 1200, some 400, some 800⟩, ⟨none, some 400, none⟩,
        ⟨some 1300, none, some 0⟩]).map (fun t => t.publishes.length) = [3, 0, 3] := by decide

/-! ### Supporting lemmas about the cache and publisher -/

theorem recon1_none (l : Option ℤ) : recon1 l none = (l, false) := rfl

theorem recon1_some (l : Option ℤ) (v : ℤ) :
    recon1 l (some v) = if some v ≠ l then (some v, true) else (l, false) := rfl

/-- A cache entry after one reconciliation arm is either the old entry or the
arm's (non-absent) reading. -/
theorem recon1_fst_eq {l r : Option ℤ} {v : ℤ} (h : (recon1 l r).1 = some v) :
    r = some v ∨ l = some v := by
  cases r with
  | none => exact Or.inr h
  | some w =>
    rw [recon1_some] at h
    by_cases hne : some w ≠ l
    · rw [if_pos hne] at h
      exact Or.inl h
    · rw [if_neg hne] at h
      exact Or.inr h

/-- Reconciling the same arm twice changes nothing and marks nothing. -/
theorem recon1_idem (l r : Option ℤ) :
    recon1 (recon1 l r).1 r = ((recon1 l r).1, false) := by
  cases r with
  | none => rfl
  | some w =>
    by_cases hne : some w ≠ l
    · have h1 : (recon1 l (some w)).1 = some w := by rw [recon1_some, if_pos hne]
      rw [h1, recon1_some, if_neg (by simp)]
    · have h1 : (recon1 l (some w)).1 = l := by rw [recon1_some, if_neg hne]
      rw [h1, recon1_some, if_neg hne]

theorem mem_ha_set_state {e entity : String} {v : ℤ} {o : Option ℤ}
    (h : (e, v) ∈ ha_set_state entity o) : e = entity ∧ o = some v := by
  cases o with
  | none => simp [ha_set_state] at h
  | some w =>
    simp only [ha_set_state, List.mem_singleton, Prod.mk.injEq] at h
    exact ⟨h.1, by rw [h.2]⟩

/-! ### Supporting lemmas about the extraction chain -/

theorem orElseOpt_some (v : ℤ) (b : Option ℤ) : orElseOpt (some v) b = some v := rfl

/-- A metric the textwise stage resolved survives the XPath fill-in of
step 2 untouched. -/
theorem scrape_step2_keeps (t : Watts3) (ps : PageState) (v : ℤ) :
    (t.prod = some v → (scrape_step2 t ps).prod = some v) ∧
    (t.cons = some v → (scrape_step2 t ps).cons = some v) ∧
    (t.grid = some v → (scrape_step2 t ps).grid = some v) := by
  unfold scrape_step2
  split
  · exact ⟨fun h => by simp [h, orElseOpt], fun h => by simp [h, orElseOpt],
      fun h => by simp [h, orElseOpt]⟩
  · exact ⟨fun h => h, fun h => h, fun h => h⟩

/-- A metric resolved before step 3 disables the iframe refresh and survives
to the final result. -/
theorem scrape_step3_keeps (r : Watts3) (ps : PageState) (v : ℤ) :
    (r.prod = some v → (scrape_step3 r ps).1.prod = some v) ∧
    (r.cons = some v → (scrape_step3 r ps).1.cons = some v) ∧
    (r.grid = some v → (scrape_step3 r ps).1.grid = some v) := by
  refine ⟨fun h => ?_, fun h => ?_, fun h => ?_⟩ <;> simp [scrape_step3, h]

/-! ### Supporting lemmas about the value parser -/

theorem digit_not_space {c : Char} (h : isDigitChar c = true) : isSpaceChar c = false := by
  cases hq : isSpaceChar c
  · rfl
  · exfalso
    simp only [isSpaceChar, Bool.or_eq_true, decide_eq_true_eq] at hq
    rcases hq with ((((h1 | h1) | h1) | h1) | h1) | h1 <;>
      (subst h1; exact absurd h (by decide))

theorem digit_ne_nbsp {c : Char} (h : isDigitChar c = true) : c ≠ '\xa0' := by
  intro hc
  subst hc
  exact absurd h (by decide)

theorem map_nbsp_id (cs : List Char) (h : ∀ c ∈ cs, c ≠ '\xa0') :
    (cs.map fun c => if c = '\xa0' then ' ' else c) = cs := by
  induction cs with
  | nil => rfl
  | cons c cs ih =>
    have hc := h c (List.mem_cons_self c cs)
    have ih2 := ih fun d hd => h d (List.mem_cons_of_mem c hd)
    simp [hc, ih2]

theorem dropWhile_head_false {p : Char → Bool} (l : List Char)
    (h : ∀ c, l.head? = some c → p c = false) : l.dropWhile p = l := by
  cases l with
  | nil => rfl
  | cons c cs => simp [List.dropWhile_cons, h c rfl]

theorem stripChars_eq_self (l : List Char)
    (h1 : ∀ c, l.head? = some c → isSpaceChar c = false)
    (h2 : ∀ c, l.getLast? = some c → isSpaceChar c = false) :
    stripChars l = l := by
  unfold stripChars
  rw [dropWhile_head_false l h1]
  rw [dropWhile_head_false l.reverse fun c hc => h2 c (by rwa [List.head?_reverse] at hc)]
  exact List.reverse_reverse l

theorem mem_of_mem_stripChars {c : Char} {l : List Char} (h : c ∈ stripChars l) : c ∈ l := by
  unfold stripChars at h
  have h1 : c ∈ (l.dropWhile isSpaceChar).reverse.dropWhile isSpaceChar :=
    List.mem_reverse.mp h
  have h2 : c ∈ (l.dropWhile isSpaceChar).reverse :=
    (List.dropWhile_sublist isSpaceChar).subset h1
  exact (List.dropWhile_sublist isSpaceChar).subset (List.mem_reverse.mp h2)

theorem takeDigits_append (ds rest : List Char) (h1 : ∀ c ∈ ds, isDigitChar c = true)
    (h2 : ∀ c, rest.head? = some c → isDigitChar c = false) :
    takeDigits (ds ++ rest) = (ds, rest) := by
  induction ds with
  | nil =>
    simp only [List.nil_append]
    cases rest with
    | nil => rfl
    | cons c cs => simp [takeDigits, h2 c rfl]
  | cons d ds ih =>
    have hd := h1 d (List.mem_cons_self d ds)
    have ih2 := ih fun c hc => h1 c (List.mem_cons_of_mem d hc)
    simp [takeDigits, hd, ih2]

theorem findNumber_eq_none (cs : List Char) (h : ∀ c ∈ cs, isDigitChar c = false) :
    findNumber cs = none := by
  induction cs with
  | nil => rfl
  | cons c cs ih =>
    have hc := h c (List.mem_cons_self c cs)
    have ih2 := ih fun d hd => h d (List.mem_cons_of_mem c hd)
    simp [findNumber, matchNumber, takeDigits, hc, ih2]

/-- On an input that is a nonempty run of digits followed by `rest` (whose
head, if any, is neither a digit nor a fractional separator), the regex
search matches the whole digit run with an empty fractional group. -/
theorem findNumber_digits (d : Char) (ds' rest : List Char)
    (h1 : ∀ c ∈ (d :: ds'), isDigitChar c = true)
    (h2 : ∀ c, rest.head? = some c → isDigitChar c = false ∧ c ≠ '.' ∧ c ≠ ',') :
    findNumber ((d :: ds') ++ rest) = some (d :: ds', [], rest) := by
  have htake : takeDigits ((d :: ds') ++ rest) = (d :: ds', rest) :=
    takeDigits_append _ _ h1 fun c hc => (h2 c hc).1
  rw [List.cons_append] at htake ⊢
  show (match matchNumber (d :: (ds' ++ rest)) with
    | some r => some r
    | none => findNumber (ds' ++ rest)) = _
  unfold matchNumber
  rw [htake]
  cases rest with
  | nil => rfl
  | cons s rs =>
    obtain ⟨-, hs1, hs2⟩ := h2 s rfl
    simp [hs1, hs2]

theorem scaledNumber_nil (ip : List Char) : scaledNumber ip [] = valOfDigits ip := by
  simp [scaledNumber, valOfDigits]

theorem roundHalfToEven_den_one (m : ℕ) : roundHalfToEven m 1 = m := by
  unfold roundHalfToEven
  rw [Nat.mod_one, Nat.div_one]
  norm_num

theorem mem_of_getLastEq {l : List Char} {c : Char} (h : l.getLast? = some c) : c ∈ l := by
  have h2 : l.reverse.head? = some c := by rw [List.head?_reverse]; exact h
  cases hr : l.reverse with
  | nil => rw [hr] at h2; cases h2
  | cons a t =>
    rw [hr, List.head?_cons] at h2
    have ha : a = c := Option.some.inj h2
    have hm : c ∈ l.reverse := by rw [hr, ha]; exact List.mem_cons_self c t
    exact List.mem_reverse.mp hm

theorem unitIsKw_nil : unitIsKw [] = false := rfl

theorem unitIsKw_W : unitIsKw ['W'] = false := rfl

theorem unitIsKw_kW : unitIsKw ['k', 'W'] = true := by decide

/-- The common computation of `_parse_watts_str` on a nonempty digit run
followed by a digit-free, separator-free suffix that survives stripping. -/
theorem parseWattsCore_digits_tail (d : Char) (ds' tail : List Char)
    (hds : ∀ c ∈ (d :: ds'), isDigitChar c = true)
    (hmap : (((d :: ds') ++ tail).map fun c => if c = '\xa0' then ' ' else c) =
      (d :: ds') ++ tail)
    (hstrip : stripChars ((d :: ds') ++ tail) = (d :: ds') ++ tail)
    (hhead : ∀ c, tail.head? = some c → isDigitChar c = false ∧ c ≠ '.' ∧ c ≠ ',') :
    parseWattsCore ((d :: ds') ++ tail) =
      some ((roundHalfToEven (if unitIsKw (tail.dropWhile isSpaceChar)
        then valOfDigits (d :: ds') * 1000 else valOfDigits (d :: ds')) 1 : ℕ) : ℤ) := by
  simp only [parseWattsCore]
  rw [hmap, hstrip, findNumber_digits d ds' tail hds hhead]
  simp only [scaledNumber_nil, List.length_nil, pow_zero]

/-- Behaviour of the regex core on a nonempty all-digit input: bare
digits default to watts; an appended ` W` keeps the value; an appended ` kW`
multiplies it by 1000. -/
theorem parseWattsCore_digits (d : Char) (ds' : List Char)
    (hds : ∀ c ∈ (d :: ds'), isDigitChar c = true) :
    parseWattsCore (d :: ds') = some ((valOfDigits (d :: ds') : ℕ) : ℤ) ∧
    parseWattsCore ((d :: ds') ++ [' ', 'W']) = some ((valOfDigits (d :: ds') : ℕ) : ℤ) ∧
    parseWattsCore ((d :: ds') ++ [' ', 'k', 'W']) =
      some (1000 * ((valOfDigits (d :: ds') : ℕ) : ℤ)) := by
  have hd0 : isDigitChar d = true := hds d (List.mem_cons_self d ds')
  have hnb : ∀ c ∈ (d :: ds'), c ≠ '\xa0' := fun c hc => digit_ne_nbsp (hds c hc)
  have hhead0 : ∀ c : Char, ((d :: ds') : List Char).head? = some c →
      isSpaceChar c = false := by
    intro c hc
    rw [List.head?_cons] at hc
    obtain rfl := Option.some.inj hc
    exact digit_not_space hd0
  refine ⟨?_, ?_, ?_⟩
  · have hlast : ∀ c : Char, ((d :: ds') : List Char).getLast? = some c →
        isSpaceChar c = false :=
      fun c hc => digit_not_space (hds c (mem_of_getLastEq hc))
    have h := parseWattsCore_digits_tail d ds' [] hds
      (by rw [List.append_nil]; exact map_nbsp_id _ hnb)
      (by rw [List.append_nil]; exact stripChars_eq_self _ hhead0 hlast)
      (by intro c hc; cases hc)
    rw [List.append_nil] at h
    rw [h, List.dropWhile_nil, unitIsKw_nil]
    simp [roundHalfToEven_den_one]
  · have hmapW : (((d :: ds') ++ [' ', 'W']).map fun c => if c = '\xa0' then ' ' else c) =
        (d :: ds') ++ [' ', 'W'] := by
      refine map_nbsp_id _ ?_
      intro c hc
      rcases List.mem_append.mp hc with h | h
      · exact digit_ne_nbsp (hds c h)
      · simp only [List.mem_cons, List.mem_singleton, List.not_mem_nil, or_false] at h
        rcases h with rfl | rfl <;> decide
    have hheadA : ∀ c : Char, (((d :: ds') ++ [' ', 'W']) : List Char).head? = some c →
        isSpaceChar c = false := by
      intro c hc
      rw [List.cons_append, List.head?_cons] at hc
      obtain rfl := Option.some.inj hc
      exact digit_not_space hd0
    have hlastA : ∀ c : Char, (((d :: ds') ++ [' ', 'W']) : List Char).getLast? = some c →
        isSpaceChar c = false := by
      intro c hc
      have he : ((d :: ds') ++ [' ', 'W'] : List Char) = ((d :: ds') ++ [' ']) ++ ['W'] := by
        simp
      rw [he, List.getLast?_concat] at hc
      obtain rfl := Option.some.inj hc
      decide
    have h := parseWattsCore_digits_tail d ds' [' ', 'W'] hds hmapW
      (stripChars_eq_self _ hheadA hlastA)
      (by
        intro c hc
        rw [List.head?_cons] at hc
        obtain rfl := Option.some.inj hc
        exact ⟨by decide, by decide, by decide⟩)
    have hw : unitIsKw (List.dropWhile isSpaceChar [' ', 'W']) = false := by decide
    rw [h, hw]
    simp [roundHalfToEven_den_one]
  · have hmapK : (((d :: ds') ++ [' ', 'k', 'W']).map fun c => if c = '\xa0' then ' ' else c) =
        (d :: ds') ++ [' ', 'k', 'W'] := by
      refine map_nbsp_id _ ?_
      intro c hc
      rcases List.mem_append.mp hc with h | h
      · exact digit_ne_nbsp (hds c h)
      · simp only [List.mem_cons, List.mem_singleton, List.not_mem_nil, or_false] at h
        rcases h with rfl | rfl | rfl <;> decide
    have hheadA : ∀ c : Char, (((d :: ds') ++ [' ', 'k', 'W']) : List Char).head? = some c →
        isSpaceChar c = false := by
      intro c hc
      rw [List.cons_append, List.head?_cons] at hc
      obtain rfl := Option.some.inj hc
      exact digit_not_space hd0
    have hlastA : ∀ c : Char,
        (((d :: ds') ++ [' ', 'k', 'W']) : List Char).getLast? = some c →
        isSpaceChar c = false := by
      intro c hc
      have he : ((d :: ds') ++ [' ', 'k', 'W'] : List Char) =
          ((d :: ds') ++ [' ', 'k']) ++ ['W'] := by simp
      rw [he, List.getLast?_concat] at hc
      obtain rfl := Option.some.inj hc
      decide
    have h := parseWattsCore_digits_tail d ds' [' ', 'k', 'W'] hds hmapK
      (stripChars_eq_self _ hheadA hlastA)
      (by
        intro c hc
        rw [List.head?_cons] at hc
        obtain rfl := Option.some.inj hc
        exact ⟨by decide, by decide, by decide⟩)
    have hk : unitIsKw (List.dropWhile isSpaceChar [' ', 'k', 'W']) = true := by decide
    rw [h, hk]
    simp only [if_true, roundHalfToEven_den_one, Option.some.injEq]
    push_cast
    ring

/-- A string containing no digit at all parses to absent. -/
theorem parse_watts_str_no_digit (s : String)
    (h : ∀ c ∈ s.data, isDigitChar c = false) : parse_watts_str (some s) = none := by
  show (if s = "" then none else parseWattsCore s.data) = none
  split
  · rfl
  · have hm : ∀ c ∈ (s.data.map fun c => if c = '\xa0' then ' ' else c),
        isDigitChar c = false := by
      intro c hc
      rcases List.mem_map.mp hc with ⟨a, ha, rfl⟩
      by_cases h0 : a = '\xa0'
      · rw [if_pos h0]; decide
      · rw [if_neg h0]; exact h a ha
    have hs : ∀ c ∈ stripChars (s.data.map fun c => if c = '\xa0' then ' ' else c),
        isDigitChar c = false := fun c hc => hm c (mem_of_mem_stripChars hc)
    simp only [parseWattsCore]
    rw [findNumber_eq_none _ hs]

/-- Rounding is to a nearest integer: `roundHalfToEven n d` differs from the
fraction `n / d` by at most one half — the
rounding error never exceeds one half. -/
theorem roundHalfToEven_nearest (n dd : ℕ) (hd : 0 < dd) :
    |((roundHalfToEven n dd : ℕ) : ℚ) - (n : ℚ) / (dd : ℚ)| ≤ 1 / 2 := by
  have hd' : (0 : ℚ) < (dd : ℚ) := by exact_mod_cast hd
  have hsplit : (n : ℚ) / (dd : ℚ) = ((n / dd : ℕ) : ℚ) + ((n % dd : ℕ) : ℚ) / (dd : ℚ) := by
    field_simp
    exact_mod_cast (Nat.div_add_mod' n dd).symm
  have hr0 : (0 : ℚ) ≤ ((n % dd : ℕ) : ℚ) / (dd : ℚ) :=
    div_nonneg (Nat.cast_nonneg _) (le_of_lt hd')
  have hr1 : ((n % dd : ℕ) : ℚ) / (dd : ℚ) < 1 := by
    rw [div_lt_one hd']
    exact_mod_cast Nat.mod_lt n hd
  unfold roundHalfToEven
  split_ifs with h1 h2 h3
  · have hlt : ((n % dd : ℕ) : ℚ) / (dd : ℚ) < 1 / 2 := by
      rw [div_lt_iff₀ hd']
      have hc : ((2 * (n % dd) : ℕ) : ℚ) < ((dd : ℕ) : ℚ) := by exact_mod_cast h1
      push_cast at hc
      linarith
    rw [hsplit, abs_le]
    constructor <;> linarith
  · have hge : 1 / 2 ≤ ((n % dd : ℕ) : ℚ) / (dd : ℚ) := by
      rw [le_div_iff₀ hd']
      have hc : ((dd : ℕ) : ℚ) < ((2 * (n % dd) : ℕ) : ℚ) := by exact_mod_cast h2
      push_cast at hc
      linarith
    rw [hsplit]
    push_cast
    rw [abs_le]
    constructor <;> linarith
  · have heq : ((n % dd : ℕ) : ℚ) / (dd : ℚ) = 1 / 2 := by
      have h2d : ((n % dd : ℕ) : ℚ) * 2 = (dd : ℚ) := by
        exact_mod_cast (by omega : n % dd * 2 = dd)
      field_simp
      linarith
    rw [hsplit, abs_le]
    constructor <;> linarith
  · have heq : ((n % dd : ℕ) : ℚ) / (dd : ℚ) = 1 / 2 := by
      have h2d : ((n % dd : ℕ) : ℚ) * 2 = (dd : ℚ) := by
        exact_mod_cast (by omega : n % dd * 2 = dd)
      field_simp
      linarith
    rw [hsplit]
    push_cast
    rw [abs_le]
    constructor <;> linarith

/-- The parser never produces a negative watt value: the regex captures only
unsigned digit tokens and the arithmetic stays nonnegative. -/
theorem parseWattsCore_nonneg {cs : List Char} {v : ℤ}
    (h : parseWattsCore cs = some v) : 0 ≤ v := by
  simp only [parseWattsCore] at h
  cases hf : findNumber (stripChars (cs.map fun c => if c = '\xa0' then ' ' else c)) with
  | none => rw [hf] at h; cases h
  | some p =>
    obtain ⟨ip, fs, rest⟩ := p
    rw [hf] at h
    simp only [Option.some.injEq] at h
    rw [← h]
    exact Int.natCast_nonneg _

/-! ### Claim theorems -/

/-- Claim C1 (confirmed).  The last-known-good cache never regresses on a
failed extraction: a metric whose reading this tick is `none` keeps exactly
its stored cache entry, and every publish call the tick issues carries, for
its metric, either the value observed this tick or a previously cached good
value — `ha_set_state` drops `None`, so no publish of `none` (or of a zero
that was not observed or previously cached) can arise from a failed
extraction. -/
theorem c1_last_good_never_regresses (last : LastGood) (r : Watts3) :
    ((r.prod = none → (main_tick last r).last.prod = last.prod) ∧
      (r.cons = none → (main_tick last r).last.cons = last.cons) ∧
      (r.grid = none → (main_tick last r).last.grid = last.grid)) ∧
    ∀ e v, (e, v) ∈ (main_tick last r).publishes →
      (e = SENSOR_PRODUCTION ∧ (r.prod = some v ∨ last.prod = some v)) ∨
      (e = SENSOR_CONSUMPTION ∧ (r.cons = some v ∨ last.cons = some v)) ∨
      (e = SENSOR_GRID ∧ (r.grid = some v ∨ last.grid = some v)) := by
  constructor
  · refine ⟨fun h => ?_, fun h => ?_, fun h => ?_⟩ <;>
      simp [main_tick, reconcile, h, recon1_none]
  · intro e v hmem
    simp only [main_tick] at hmem
    by_cases hu : (reconcile last r).2 = true
    · rw [if_pos hu] at hmem
      have hp : (reconcile last r).1.prod = (recon1 last.prod r.prod).1 := rfl
      have hc : (reconcile last r).1.cons = (recon1 last.cons r.cons).1 := rfl
      have hg : (reconcile last r).1.grid = (recon1 last.grid r.grid).1 := rfl
      rcases List.mem_append.mp hmem with h1 | h1
      · rcases List.mem_append.mp h1 with h2 | h2
        · obtain ⟨he, ho⟩ := mem_ha_set_state h2
          exact Or.inl ⟨he, recon1_fst_eq (hp ▸ ho)⟩
        · obtain ⟨he, ho⟩ := mem_ha_set_state h2
          exact Or.inr (Or.inl ⟨he, recon1_fst_eq (hc ▸ ho)⟩)
      · obtain ⟨he, ho⟩ := mem_ha_set_state h1
        exact Or.inr (Or.inr ⟨he, recon1_fst_eq (hg ▸ ho)⟩)
    · rw [if_neg hu] at hmem
      simp at hmem

/-- Witness for C1 at a concrete tick: Production absent, cache `some 5`
kept. -/
theorem c1_last_good_never_regresses_witness :
    (main_tick ⟨some 5, some 6, some 7⟩ ⟨none, some 6, none⟩).last.prod = some 5 :=
  (c1_last_good_never_regresses ⟨some 5, some 6, some 7⟩ ⟨none, some 6, none⟩).1.1 rfl

/-- Claim C6 (confirmed).  Reconciliation is idempotent: feeding the same
readings a second time marks no metric (`updated` stays false), leaves the
cache as is, and issues no publish call. -/
theorem c6_reconcile_idempotent (last : LastGood) (r : Watts3) :
    reconcile (reconcile last r).1 r = ((reconcile last r).1, false) ∧
    (main_tick (main_tick last r).last r).publishes = [] := by
  have h : reconcile (reconcile last r).1 r = ((reconcile last r).1, false) := by
    show reconcile ⟨(recon1 last.prod r.prod).1, (recon1 last.cons r.cons).1,
      (recon1 last.grid r.grid).1⟩ r = _
    unfold reconcile
    simp only [recon1_idem]
    rfl
  refine ⟨h, ?_⟩
  have h2 : (main_tick (main_tick last r).last r).publishes =
      (main_tick (reconcile last r).1 r).publishes := rfl
  rw [h2]
  simp only [main_tick, h]
  simp

/-- Claim C2 as stated is false on the code (counterexample).  On a page
state where the structured (XPath) lookup would resolve Production to 200
while the full-text pattern match resolves it to 100, `scrape_once` returns
100: the chain runs the full-text stage first (line 352) and only falls back
to XPaths (lines 355-359), so the full-text value, not the structured one,
wins. -/
theorem c2_structured_precedence_counterexample :
    (scrape_once ⟨⟨some 100, some 70, some 50⟩, none, ⟨some 200, some 201, some 202⟩,
        none, none⟩).1.prod = some 100 ∧
      (scrape_once ⟨⟨some 100, some 70, some 50⟩, none, ⟨some 200, some 201, some 202⟩,
        none, none⟩).1.prod ≠ some 200 := by decide

/-- Claim C2 amended (proved): the chain order is full-text pattern match
first, then structured XPath lookup, then the one-shot iframe refresh; per
metric the first stage in that order returning a non-absent value wins, so a
metric the full-text stage resolves is returned as-is and the structured
lookup cannot override it. -/
theorem c2_first_stage_wins (ps : PageState) (v : ℤ) :
    ((extract_textwise ps.jsTop ps.jsIframe).prod = some v →
      (scrape_once ps).1.prod = some v) ∧
    ((extract_textwise ps.jsTop ps.jsIframe).cons = some v →
      (scrape_once ps).1.cons = some v) ∧
    ((extract_textwise ps.jsTop ps.jsIframe).grid = some v →
      (scrape_once ps).1.grid = some v) := by
  refine ⟨fun h => ?_, fun h => ?_, fun h => ?_⟩
  · exact (scrape_step3_keeps _ ps v).1 ((scrape_step2_keeps _ ps v).1 h)
  · exact (scrape_step3_keeps _ ps v).2.1 ((scrape_step2_keeps _ ps v).2.1 h)
  · exact (scrape_step3_keeps _ ps v).2.2 ((scrape_step2_keeps _ ps v).2.2 h)

/-- Witness for the amended C2 at a concrete page state. -/
theorem c2_first_stage_wins_witness :
    (scrape_once ⟨⟨some 42, none, none⟩, none, ⟨some 7, some 8, some 9⟩, none,
      none⟩).1.prod = some 42 :=
  (c2_first_stage_wins ⟨⟨some 42, none, none⟩, none, ⟨some 7, some 8, some 9⟩, none,
    none⟩ 42).1 (by decide)

/-- The readings of the spec's end-to-end scenario (ticks 1-3). -/
def c3Readings : List Watts3 :=
  [⟨some 1200, some 400, some 800⟩, ⟨none, some 400, none⟩, ⟨some 1300, none, some 0⟩]

/-- Claim C3 as stated is false on the code (counterexample).  In the
end-to-end scenario the three ticks issue 3, 0 and 3 publish calls — not
3, 0, 2: once any metric updates, `main` calls `ha_set_state` for all three
sensors, so tick 3 also republishes Consumption's cached 400. -/
theorem c3_publish_counts_counterexample :
    ((run_ticks ⟨none, none, none⟩ c3Readings).map fun t => t.publishes.length) = [3, 0, 3] ∧
      ¬ ((run_ticks ⟨none, none, none⟩ c3Readings).map fun t => t.publishes.length) =
        [3, 0, 2] := by decide

/-- Claim C3 amended (proved): tick 1 issues the three publish calls
Production=1200, Consumption=400, GridFlow=800; tick 2 (nothing changed)
issues none; tick 3 issues three — Production=1300 and GridFlow=0 from fresh
readings, plus Consumption=400 republished from the cache, because a tick
with any update publishes every metric whose cached value is non-`None`,
not only the updated ones. -/
theorem c3_publish_calls_per_tick :
    (run_ticks ⟨none, none, none⟩ c3Readings).map (fun t => t.publishes) =
      [[(SENSOR_PRODUCTION, 1200), (SENSOR_CONSUMPTION, 400), (SENSOR_GRID, 800)],
        [],
        [(SENSOR_PRODUCTION, 1300), (SENSOR_CONSUMPTION, 400), (SENSOR_GRID, 0)]] := by
  decide

/-- A page state on which every strategy misses (no iframe anywhere). -/
def allAbsentPage : PageState :=
  ⟨⟨none, none, none⟩, none, ⟨none, none, none⟩, none, none⟩

/-- Claim C5 as stated is false on the code (counterexample).  Over three
consecutive ticks in which all metrics resolve to absent, `main` has issued
three forced page reloads by the end of the third tick — one per all-absent
tick (lines 448-452), with no counter spreading them out — not exactly
one. -/
theorem c5_one_reload_counterexample :
    ((run_full_ticks ⟨none, none, none⟩
        [allAbsentPage, allAbsentPage, allAbsentPage]).map fun t => t.pageReloads).sum = 3 ∧
      ¬ ((run_full_ticks ⟨none, none, none⟩
        [allAbsentPage, allAbsentPage, allAbsentPage]).map fun t => t.pageReloads).sum = 1 := by
  decide

/-- Claim C5 amended (proved): every tick whose readings all resolve to
absent triggers exactly one forced page reload, so after three such
consecutive ticks three page reloads have been issued — one per tick (the
extraction chain may additionally attempt an iframe reload inside each such
tick). -/
theorem c5_reload_every_empty_tick (last : LastGood) (ps1 ps2 ps3 : PageState)
    (h1 : (scrape_once ps1).1 = ⟨none, none, none⟩)
    (h2 : (scrape_once ps2).1 = ⟨none, none, none⟩)
    (h3 : (scrape_once ps3).1 = ⟨none, none, none⟩) :
    (run_full_ticks last [ps1, ps2, ps3]).map (fun t => t.pageReloads) = [1, 1, 1] := by
  simp [run_full_ticks, full_tick, h1, h2, h3, main_tick]

/-- Witness for the amended C5 at three concrete all-miss page states. -/
theorem c5_reload_every_empty_tick_witness :
    (run_full_ticks ⟨none, none, none⟩
        [allAbsentPage, allAbsentPage, allAbsentPage]).map (fun t => t.pageReloads) =
      [1, 1, 1] :=
  c5_reload_every_empty_tick ⟨none, none, none⟩ allAbsentPage allAbsentPage allAbsentPage
    (by decide) (by decide) (by decide)

/-- Claim C7 as stated is false on the code (counterexample).  A login-field
timeout on the very first login attempt of the process is fatal: the initial
`do_login_fronius` (line 417) runs before the tick loop and outside any
per-tick handler, so the `TimeoutError` escapes `main` and the process
terminates — it does not stay up retrying. -/
theorem c7_never_fatal_counterexample :
    main_control (some "user@example.com") (some "secret") false [] =
        ⟨true, 0, .crashed⟩ ∧
      MainOutcome.crashed ≠ MainOutcome.running := by decide

/-- Claim C7 amended (proved): once the tick loop has been entered (the
startup credential check passed and the initial login succeeded), login
failures are never fatal — every tick completes even when its body raises
(e.g. an in-loop re-login timing out), for any number of ticks, and the
process stays in the loop; but a login failure on the initial startup
attempt, before the loop, escapes and terminates the process. -/
theorem c7_login_retry_in_loop (email password : Option String) (ticks : List Bool)
    (he : pyFalsyStr email = false) (hp : pyFalsyStr password = false) :
    main_control email password true ticks = ⟨true, ticks.length, .running⟩ ∧
      main_control email password false [] = ⟨true, 0, .crashed⟩ := by
  constructor <;> simp [main_control, he, hp]

/-- Witness for the amended C7: three ticks whose in-loop login raised every
time all complete, and the loop keeps running. -/
theorem c7_login_retry_in_loop_witness :
    main_control (some "user@example.com") (some "secret") true [true, true, true] =
      ⟨true, 3, .running⟩ :=
  (c7_login_retry_in_loop (some "user@example.com") (some "secret") [true, true, true]
    rfl rfl).1

/-- Claim C9 (confirmed).  A missing (or empty) EMAIL or PASSWORD is a fatal
startup-only failure: `main` raises before `make_driver()` and before the
tick loop — the browser is never created, zero ticks run, and there is no
retry path. -/
theorem c9_missing_credentials_fatal (email password : Option String)
    (initialLoginOk : Bool) (ticks : List Bool)
    (h : pyFalsyStr email = true ∨ pyFalsyStr password = true) :
    main_control email password initialLoginOk ticks = ⟨false, 0, .startupError⟩ := by
  rcases h with h | h <;> simp [main_control, h]

/-- Witness for C9 with EMAIL unset. -/
theorem c9_missing_credentials_fatal_witness :
    main_control none (some "secret") true [true] = ⟨false, 0, .startupError⟩ :=
  c9_missing_credentials_fatal none (some "secret") true [true] (Or.inl rfl)

/-- Claim C10 (confirmed).  The full-text stage's fall-through guard is
Python truthiness, which treats 0 as a miss: whenever every top-level value
is falsy (`None` or a genuine 0) and the iframe script runs, the iframe's
results overwrite the top-level ones wholesale — in particular an all-zero
top-level extraction is replaced by an all-absent iframe result. -/
theorem c10_zero_falls_through (t f : Watts3)
    (hp : pyTruthy t.prod = false) (hg : pyTruthy t.grid = false)
    (hc : pyTruthy t.cons = false) :
    extract_textwise t (some f) = f ∧
      extract_textwise ⟨some 0, some 0, some 0⟩ (some ⟨none, none, none⟩) =
        ⟨none, none, none⟩ := by
  constructor
  · simp [extract_textwise, hp, hg, hc]
  · decide

/-- Witness for C10: genuine zeros replaced by an absent iframe result. -/
theorem c10_zero_falls_through_witness :
    extract_textwise ⟨some 0, some 0, some 0⟩ (some ⟨none, none, none⟩) =
      ⟨none, none, none⟩ :=
  (c10_zero_falls_through ⟨some 0, some 0, some 0⟩ ⟨none, none, none⟩
    (by decide) (by decide) (by decide)).1

/-- Claim C4 (confirmed).  The value parser: `parse("0,83 kW") = 830`,
`parse("829 W") = 829`, `parse("no numbers here") = absent`, the non-breaking
space is tolerated (`parse("0.5\xa0kW") = 500`); any string with no digit at
all parses to absent; on a numeric token a missing unit defaults to watts, an
explicit `W` keeps the value, and `kW` multiplies it by 1000; and the
rounding used is to a nearest integer (round half to even, deterministic):
the rounding error of `roundHalfToEven` never exceeds one half. -/
theorem c4_value_parsing :
    parse_watts_str (some "0,83 kW") = some 830 ∧
    parse_watts_str (some "829 W") = some 829 ∧
    parse_watts_str (some "no numbers here") = none ∧
    parse_watts_str (some "0.5\xa0kW") = some 500 ∧
    (∀ s : String, (∀ c ∈ s.data, isDigitChar c = false) →
      parse_watts_str (some s) = none) ∧
    (∀ (d : Char) (ds' : List Char), (∀ c ∈ (d :: ds'), isDigitChar c = true) →
      parseWattsCore (d :: ds') = some ((valOfDigits (d :: ds') : ℕ) : ℤ) ∧
      parseWattsCore ((d :: ds') ++ [' ', 'W']) = some ((valOfDigits (d :: ds') : ℕ) : ℤ) ∧
      parseWattsCore ((d :: ds') ++ [' ', 'k', 'W']) =
        some (1000 * ((valOfDigits (d :: ds') : ℕ) : ℤ))) ∧
    (∀ n dd : ℕ, 0 < dd →
      |((roundHalfToEven n dd : ℕ) : ℚ) - (n : ℚ) / (dd : ℚ)| ≤ 1 / 2) :=
  ⟨by decide, by decide, by decide, by decide, parse_watts_str_no_digit,
    parseWattsCore_digits, roundHalfToEven_nearest⟩

/-- Witness for C4: a digit-free string parses to absent, a bare digit run
parses to its value in watts, and a concrete rounding error is within one
half. -/
theorem c4_value_parsing_witness :
    parse_watts_str (some "xyz") = none ∧
      parseWattsCore ['8'] = some ((valOfDigits ['8'] : ℕ) : ℤ) ∧
      |((roundHalfToEven 3 2 : ℕ) : ℚ) - (3 : ℚ) / (2 : ℚ)| ≤ 1 / 2 :=
  ⟨c4_value_parsing.2.2.2.2.1 "xyz" (by decide),
    (c4_value_parsing.2.2.2.2.2.1 '8' [] (by decide)).1,
    c4_value_parsing.2.2.2.2.2.2 3 2 (by norm_num)⟩

/-- Claim C8 as stated is false on the code (counterexample).  Nothing in
either extractor maps an importing (negative) raw signal to zero: the regex
group captures only the unsigned digit token, so a grid element rendering
the import as "-500 W" parses to 500 and is published as GridFlow=500, not
0. -/
theorem c8_import_not_zeroed_counterexample :
    parse_watts_str (some "-500 W") = some 500 ∧
      (main_tick ⟨none, none, none⟩
        ⟨none, none, parse_watts_str (some "-500 W")⟩).publishes =
          [(SENSOR_GRID, 500)] ∧
      ¬ (main_tick ⟨none, none, none⟩
        ⟨none, none, parse_watts_str (some "-500 W")⟩).publishes =
          [(SENSOR_GRID, 0)] := by decide

/-- Claim C8 amended (proved): the published GridFlow value is indeed never
negative — the regexes of both extractors capture only unsigned digit
tokens, so `_parse_watts_str` and the `toWatts` path of `JS_EXTRACT` can only
produce nonnegative watt values — but an importing signal is not mapped to
zero: its sign is simply ignored and the unsigned magnitude is published. -/
theorem c8_published_grid_nonnegative (s : Option String) (v : ℤ)
    (ip fs : List Char) (kw : Bool) :
    (parse_watts_str s = some v → 0 ≤ v) ∧ 0 ≤ jsToWatts ip fs kw := by
  constructor
  · intro h
    cases s with
    | none => cases h
    | some str =>
      have hshow : parse_watts_str (some str) =
          if str = "" then none else parseWattsCore str.data := rfl
      rw [hshow] at h
      by_cases he : str = ""
      · rw [if_pos he] at h; cases h
      · rw [if_neg he] at h
        exact parseWattsCore_nonneg h
  · exact Int.natCast_nonneg _

/-- Witness for the amended C8 at concrete inputs. -/
theorem c8_published_grid_nonnegative_witness :
    (0 : ℤ) ≤ 830 ∧ (0 : ℤ) ≤ jsToWatts ['5'] [] true :=
  ⟨(c8_published_grid_nonnegative (some "0,83 kW") 830 [] [] false).1 (by decide),
    (c8_published_grid_nonnegative (some "x") 0 ['5'] [] true).2⟩

end Scraping
